import Mathlib

/-!
Verification of the trivia-API backend core (pagination, search, category
scoping, question creation/deletion and the quiz selector) against its
specification.  The definitions below are a shallow embedding of
`backend/flaskr/__init__.py`: the record store is a `List Question` /
`List Category`, HTTP `abort(code)` becomes an `error code` result, Python
exceptions become explicit outcomes, and the quiz handler's `while` loop is
run on explicit fuel so that non-termination is visible as `none` at every
fuel value.  Randomness (`random.choice`) is modelled by an explicit stream
of pick indices supplied to the handler.
-/

namespace Trivia

/-- A `Question` row: id, question text, answer text, category reference and
difficulty.  The category column holds the store's native representation,
a string (the handlers compare it against `str(id)`). -/
structure Question where
  id : Nat
  question : String
  answer : String
  category : String
  difficulty : Nat
deriving DecidableEq

/-- A `Category` row: id and display label. -/
structure Category where
  id : Nat
  type : String
deriving DecidableEq

/-- The dictionary produced by `Question.format()`. -/
structure FormattedQuestion where
  id : Nat
  question : String
  answer : String
  category : String
  difficulty : Nat
deriving DecidableEq

/-- `question.format()`: the JSON dictionary of a question's fields. -/
def Question.format (q : Question) : FormattedQuestion :=
  ⟨q.id, q.question, q.answer, q.category, q.difficulty⟩

/-- Outcome of a handler: `ok payload` for a success JSON body, or
`error code` for `abort(code)` / an uncaught exception mapped to an HTTP
error response. -/
inductive HandlerResult (α : Type) where
  | ok : α → HandlerResult α
  | error : Nat → HandlerResult α
deriving DecidableEq

/-! ## Pagination engine (`paginate`, source lines 9-18) -/

def QUESTIONS_PER_PAGE : Nat := 10

/-- `paginate(request, selections)` with the `page` query argument already
extracted (it defaults to 1 upstream): formats every selection, then takes
the Python slice `questions[start:end]` with `start = (page-1)*10`,
`end = start+10`.  For `page ≥ 1` both slice indices are non-negative, so
the slice is `drop start` followed by `take 10`. -/
def paginate (page : Nat) (selections : List Question) : List FormattedQuestion :=
  let start := (page - 1) * QUESTIONS_PER_PAGE
  let questions := selections.map Question.format
  (questions.drop start).take QUESTIONS_PER_PAGE

/-! ## Deletion handler (`delete_question`, source lines 100-117)

The route is registered as
`@app.route('/questions/<int:id>', methods=['GET','DELETE'])`.
Inside the `try` block the handler looks the question up by primary key,
calls `abort(404)` when it is absent, otherwise deletes the row and returns
`{'success': True, 'deleted': id}`.  The bare `except:` catches every
exception raised in the block — including the `HTTPException` that
`abort(404)` raises — and answers `abort(422)` instead. -/

/-- An exception escaping the `try` block of the deletion handler. -/
inductive PyExc where
  | httpError : Nat → PyExc
deriving DecidableEq

/-- Success payload of deletion: the store after `question.delete()` and
the `deleted` id echoed in the JSON body. -/
structure DeletePayload where
  newStore : List Question
  deleted : Nat
deriving DecidableEq

/-- The body of the `try` block: `Question.query.get(id)`; `abort(404)`
(an exception) when absent; otherwise the row is deleted. -/
def delete_question_try (store : List Question) (id : Nat) :
    Except PyExc DeletePayload :=
  match store.find? (fun q => q.id == id) with
  | none => Except.error (PyExc.httpError 404)
  | some _ => Except.ok ⟨store.filter (fun q => !(q.id == id)), id⟩

/-- The whole handler: any exception from the `try` body — the `abort(404)`
included — is swallowed by the bare `except:` and turned into `abort(422)`. -/
def delete_question (store : List Question) (id : Nat) :
    HandlerResult DeletePayload :=
  match delete_question_try store id with
  | Except.ok payload => HandlerResult.ok payload
  | Except.error _ => HandlerResult.error 422

/-- HTTP methods relevant to the routes modelled here. -/
inductive HttpMethod where
  | get
  | post
  | delete
deriving DecidableEq

/-- The method list of the `/questions/<int:id>` route registration:
`methods=['GET','DELETE']` (source line 100). -/
def question_id_methods : List HttpMethod := [HttpMethod.get, HttpMethod.delete]

/-- Dispatch on `/questions/<int:id>`: any method in the registration list
runs `delete_question`; anything else is not routed (`none`). -/
def dispatch_question_id (m : HttpMethod) (store : List Question) (id : Nat) :
    Option (HandlerResult DeletePayload) :=
  if m ∈ question_id_methods then some (delete_question store id) else none

/-! ## Creation handler (`create_question`, source lines 128-156)

The handler reads `question_data['question']`, `['answer']`, `['category']`
and `['difficulty']` directly: an absent key raises `KeyError`, and since no
`try`/`except` surrounds the handler, Flask answers with a 500 Internal
Server Error.  No further validation happens: any present values (an empty
answer included) are inserted and a success body is returned. -/

/-- The JSON body of a creation request; `none` marks an absent key. -/
structure CreateBody where
  question : Option String
  answer : Option String
  category : Option String
  difficulty : Option Nat
deriving DecidableEq

/-- Success payload of creation. -/
structure CreatePayload where
  created : Nat
  questions : List FormattedQuestion
  total_questions : Nat
deriving DecidableEq

/-- The creation handler.  `nextId` is the id the store assigns to the new
row; `page` is the page argument `paginate` extracts from the request.  A
missing key raises `KeyError`, which no handler code catches: outcome 500. -/
def create_question (store : List Question) (nextId : Nat) (page : Nat)
    (body : CreateBody) : HandlerResult (List Question × CreatePayload) :=
  match body.question, body.answer, body.category, body.difficulty with
  | some tq, some ta, some tc, some td =>
    let q : Question := ⟨nextId, tq, ta, tc, td⟩
    let all_questions := store ++ [q]
    HandlerResult.ok
      (all_questions, ⟨nextId, paginate page all_questions, all_questions.length⟩)
  | _, _, _, _ => HandlerResult.error 500

/-! ## Search handler (`search_questions`, source lines 167-186)

The handler filters with
`Question.query.filter(Question.question.ilike('%{}%'.format(search_term)))`.
The store is PostgreSQL, whose `ILIKE` is case-insensitive `LIKE`: the
pattern and the text are compared after lowercasing, `'%'` in the pattern
matches any (possibly empty) character sequence, `'_'` matches exactly one
character, a backslash — the default escape character, since no `ESCAPE`
clause is given — makes the following pattern character a literal, and
every other pattern character matches itself; the pattern must cover the
whole text.  The search term is spliced into the pattern unescaped, so
wildcard and escape characters inside the term keep their `LIKE` meaning.
A pattern ending in a lone escape character is an error in PostgreSQL; the
matcher returns false there, but the handler's patterns `'%' + term + '%'`
end in `'%'`, so no suffix of them is a lone backslash and the case is
unreachable.  The matcher below is structural in the text first and the
pattern second, so it computes by kernel reduction. -/

/-- `LIKE` pattern against the empty string: only a pattern made of
`'%'` characters matches.  An escaped character is a literal and a literal
never matches the empty string, which the `p == '%'` scan already rejects
(a backslash is not `'%'`); a trailing lone escape also fails. -/
def likeEmpty : List Char → Bool
  | [] => true
  | p :: ps => p == '%' && likeEmpty ps

/-- One step of `LIKE` matching against a string `c :: s`, where `tail`
matches patterns against `s`.  A backslash escapes the next pattern
character into a literal (PostgreSQL's default `ESCAPE`); a lone trailing
backslash — an error in PostgreSQL, unreachable for the handler's
patterns — matches nothing. -/
def likeCons (c : Char) (tail : List Char → Bool) : List Char → Bool
  | [] => false
  | p :: ps =>
    if p == '\\' then
      match ps with
      | [] => false
      | x :: ps' => x == c && tail ps'
    else if p == '%' then likeCons c tail ps || tail (p :: ps)
    else if p == '_' then tail ps
    else p == c && tail ps

/-- `LIKE` matching, by structural recursion on the text. -/
def likeGo : List Char → List Char → Bool
  | [] => likeEmpty
  | c :: s => likeCons c (likeGo s)

/-- `pattern LIKE`-matches `s` (whole-string match, `%`/`_` wildcards). -/
def likeMatch (pattern s : List Char) : Bool := likeGo s pattern

/-- `text ILIKE pattern`: case-insensitive `LIKE`. -/
def iLike (pattern text : String) : Bool :=
  likeMatch (pattern.toList.map Char.toLower) (text.toList.map Char.toLower)

/-- The result set of the search query (the `questions` variable of the
handler, before pagination): every stored question whose text matches
`'%' + term + '%'` case-insensitively. -/
def search_questions (term : String) (store : List Question) : List Question :=
  store.filter (fun q => iLike ("%" ++ term ++ "%") q.question)

/-! ## By-category handler (`show_questions_by_category`, source lines 196-213) -/

/-- Success payload of the by-category listing. -/
structure ByCategoryPayload where
  questions : List FormattedQuestion
  total_questions : Nat
  current_category : String
deriving DecidableEq

/-- `Category.query.filter_by(id=id).one_or_none()`; on a hit, the
questions with `category == str(id)` are listed (paginated); otherwise
`abort(404)`. -/
def show_questions_by_category (cats : List Category) (store : List Question)
    (id : Nat) (page : Nat) : HandlerResult ByCategoryPayload :=
  match cats.find? (fun c => c.id == id) with
  | some cat =>
    let all_questions := store.filter (fun q => q.category == toString id)
    HandlerResult.ok
      ⟨paginate page all_questions, all_questions.length, cat.type⟩
  | none => HandlerResult.error 404

/-! ## Quiz handler (`get_quiz_question`, source lines 225-258)

```python
next_question = random.choice(questions).format()
is_question_old = False
if next_question['id'] in previous_questions:
  is_question_old = True
while is_question_old:
  next_question = random.choice(questions).format()
  if (len(previous_questions) == len(questions)):
    return jsonify({'success': True, 'message': "game over"}), 200
return jsonify({'success': True, 'question': next_question})
```

`questions` is the candidate pool (all questions, or the category's
questions, per the `category['id'] == 0` branch).  Each `random.choice`
consumes one value of an explicit pick stream; `random.choice` on an empty
sequence raises `IndexError`, which nothing catches.  Note that the loop
body never reassigns `is_question_old`, so the loop condition can only be
left through the `len(previous_questions) == len(questions)` return; the
loop is run on fuel, and `none` means it is still running after that many
iterations. -/

/-- Quiz success bodies: a question payload, or the `"game over"` message. -/
inductive QuizResult where
  | question : FormattedQuestion → QuizResult
  | gameOver : QuizResult
deriving DecidableEq

/-- Quiz call outcome: a success body, or the uncaught `IndexError` from
`random.choice` on an empty sequence (surfacing as HTTP 500). -/
inductive QuizOutcome where
  | ok : QuizResult → QuizOutcome
  | indexError : QuizOutcome
deriving DecidableEq

/-- `random.choice(qs)` driven by pick value `r`: the element at index
`r % qs.length`, or `none` (the `IndexError`) when `qs` is empty. -/
def random_choice (qs : List Question) (r : Nat) : Option Question :=
  qs[r % qs.length]?

/-- The `while is_question_old:` loop, on fuel.  Each iteration re-draws a
question (the draw's result is never re-examined: `is_question_old` is not
reassigned) and then tests the `game over` condition.  `none` = the loop
has not returned within `fuel` iterations. -/
def quizLoop (qs : List Question) (previous : List Nat) (stream : Nat → Nat) :
    Nat → Nat → Option QuizOutcome
  | _, 0 => none
  | k, fuel + 1 =>
    match random_choice qs (stream k) with
    | none => some QuizOutcome.indexError
    | some _next =>
      if previous.length = qs.length then some (QuizOutcome.ok QuizResult.gameOver)
      else quizLoop qs previous stream (k + 1) fuel

/-- The quiz handler on candidate pool `qs` and previously-served list
`previous`; `stream` supplies the `random.choice` picks and `fuel` bounds
the observed loop iterations (`none` = still looping). -/
def get_quiz_question (qs : List Question) (previous : List Nat)
    (stream : Nat → Nat) (fuel : Nat) : Option QuizOutcome :=
  match random_choice qs (stream 0) with
  | none => some QuizOutcome.indexError
  | some q =>
    let next := q.format
    if next.id ∈ previous then quizLoop qs previous stream 1 fuel
    else some (QuizOutcome.ok (QuizResult.question next))

/-! ## Concrete rows used in witnesses and counterexamples -/

/-- Question 2 of the spec's quiz scenario (category 5). -/
def q2 : Question := ⟨2, "Q2", "A2", "5", 1⟩

/-- Question 3 of the spec's quiz scenario (category 5). -/
def q3 : Question := ⟨3, "Q3", "A3", "5", 1⟩

/-- Question 6 of the spec's quiz scenario (category 5). -/
def q6 : Question := ⟨6, "Q6", "A6", "5", 1⟩

/-- A generic single question with id 1. -/
def qA : Question := ⟨1, "QA", "AA", "1", 1⟩

/-! ## Quiz selector lemmas -/

/-- On a non-empty pool, `random.choice` returns a pool element. -/
theorem random_choice_mem (qs : List Question) (r : Nat) (h : qs ≠ []) :
    ∃ q, random_choice qs r = some q ∧ q ∈ qs := by
  have hlen : 0 < qs.length := List.length_pos.mpr h
  have hm : r % qs.length < qs.length := Nat.mod_lt _ hlen
  exact ⟨qs[r % qs.length], by simp [random_choice, List.getElem?_eq_getElem hm],
    List.getElem_mem hm⟩

/-- Whatever the `while` loop returns is the game-over body or the
`IndexError`: the loop can never produce a question payload, because
`is_question_old` is never reassigned inside it. -/
theorem quizLoop_result (qs : List Question) (previous : List Nat)
    (stream : Nat → Nat) :
    ∀ fuel k r, quizLoop qs previous stream k fuel = some r →
      r = QuizOutcome.ok QuizResult.gameOver ∨ r = QuizOutcome.indexError := by
  intro fuel
  induction fuel with
  | zero => intro k r h; simp [quizLoop] at h
  | succ n ih =>
    intro k r h
    rw [quizLoop] at h
    cases hc : random_choice qs (stream k) with
    | none =>
      rw [hc] at h
      exact Or.inr (Option.some.inj h).symm
    | some q =>
      rw [hc] at h
      by_cases hlen : previous.length = qs.length
      · rw [if_pos hlen] at h
        exact Or.inl (Option.some.inj h).symm
      · rw [if_neg hlen] at h
        exact ih (k + 1) r h

/-- When the served list's length differs from the pool's, the loop never
returns: the game-over test compares two lengths that no iteration changes,
and no other exit exists. -/
theorem quizLoop_none_of_len_ne (qs : List Question) (previous : List Nat)
    (stream : Nat → Nat) (hlen : previous.length ≠ qs.length) (hqs : qs ≠ []) :
    ∀ fuel k, quizLoop qs previous stream k fuel = none := by
  intro fuel
  induction fuel with
  | zero => intro k; rfl
  | succ n ih =>
    intro k
    obtain ⟨q, hc, -⟩ := random_choice_mem qs (stream k) hqs
    rw [quizLoop, hc, if_neg hlen]
    exact ih (k + 1)

/-- When the lengths agree and the pool is non-empty, the first loop
iteration returns the game-over body. -/
theorem quizLoop_gameOver (qs : List Question) (previous : List Nat)
    (stream : Nat → Nat) (hlen : previous.length = qs.length) (hqs : qs ≠ [])
    (fuel : Nat) (hfuel : 1 ≤ fuel) (k : Nat) :
    quizLoop qs previous stream k fuel = some (QuizOutcome.ok QuizResult.gameOver) := by
  cases fuel with
  | zero => exact absurd hfuel (by simp)
  | succ n =>
    obtain ⟨q, hc, -⟩ := random_choice_mem qs (stream k) hqs
    rw [quizLoop, hc, if_pos hlen]

/-! ## Claims C1-C4: the quiz selector -/

/-- C1: Quiz totality — the spec demands that whenever the unseen subset
`P \ S` is non-empty the selector returns a question, in particular that
with `previous_questions = [2,6]` and pool `{2,3,6}` it returns question 3.
The code violates this: with a first pick of question 2 (already served)
the `while` loop is entered and, since `is_question_old` is never
reassigned and `len(previous) = 2 ≠ 3 = len(questions)`, the loop never
returns — at every fuel bound the call is still running (`none`). -/
theorem quiz_totality_violated :
    ∀ fuel : Nat, get_quiz_question [q2, q3, q6] [2, 6] (fun _ => 0) fuel = none := by
  intro fuel
  have h : get_quiz_question [q2, q3, q6] [2, 6] (fun _ => 0) fuel
      = quizLoop [q2, q3, q6] [2, 6] (fun _ => 0) 1 fuel := rfl
  rw [h]
  exact quizLoop_none_of_len_ne [q2, q3, q6] [2, 6] (fun _ => 0)
    (by decide) (by decide) fuel 1

/-- C2: Quiz no-repeat invariant — whenever the quiz call returns a
question payload, the returned question's id is not in the
previously-served list: the loop can never emit a question, so a question
payload always comes from the initial pick, which was checked against
`previous_questions`. -/
theorem quiz_no_repeat (qs : List Question) (previous : List Nat)
    (stream : Nat → Nat) (fuel : Nat) (fq : FormattedQuestion)
    (h : get_quiz_question qs previous stream fuel
      = some (QuizOutcome.ok (QuizResult.question fq))) :
    fq.id ∉ previous := by
  unfold get_quiz_question at h
  cases hc : random_choice qs (stream 0) with
  | none => rw [hc] at h; cases Option.some.inj h
  | some q =>
    rw [hc] at h
    dsimp only at h
    by_cases hm : (Question.format q).id ∈ previous
    · rw [if_pos hm] at h
      rcases quizLoop_result qs previous stream fuel 1 _ h with h1 | h1 <;> cases h1
    · rw [if_neg hm] at h
      have hq : Question.format q = fq :=
        QuizResult.question.inj (QuizOutcome.ok.inj (Option.some.inj h))
      rw [← hq]
      exact hm

/-- Witness for C2 at the spec's scenario: pool `[q3]`, served `[2,6]`;
the call returns question 3 and `3 ∉ [2,6]`. -/
theorem quiz_no_repeat_witness :
    get_quiz_question [q3] [2, 6] (fun _ => 0) 1
      = some (QuizOutcome.ok (QuizResult.question (Question.format q3)))
    ∧ (Question.format q3).id ∉ ([2, 6] : List Nat) :=
  ⟨rfl, quiz_no_repeat [q3] [2, 6] (fun _ => 0) 1 (Question.format q3) rfl⟩

/-- C3 counterexample: with pool `[qA]` (id 1) and served list `[2]` the
length equality `|S| = |P|` holds, yet the call returns a question payload
(id 1 is not in the served list), not the game-over body — and it plainly
performs a random selection to do so. -/
theorem quiz_exhaustion_counterexample :
    ([2] : List Nat).length = [qA].length
    ∧ get_quiz_question [qA] [2] (fun _ => 0) 1
      = some (QuizOutcome.ok (QuizResult.question (Question.format qA))) :=
  ⟨rfl, rfl⟩

/-- C3 amended: when the pool is non-empty, every pool question's id is
already in the previously-served list, and the served list's length equals
the pool's size, the call returns the game-over body with success status
and no question payload (the handler does, however, perform random
selections before returning). -/
theorem quiz_exhaustion_amended (qs : List Question) (previous : List Nat)
    (stream : Nat → Nat) (fuel : Nat) (hqs : qs ≠ [])
    (hcov : ∀ q ∈ qs, q.id ∈ previous)
    (hlen : previous.length = qs.length) (hfuel : 1 ≤ fuel) :
    get_quiz_question qs previous stream fuel
      = some (QuizOutcome.ok QuizResult.gameOver) := by
  obtain ⟨q, hc, hmem⟩ := random_choice_mem qs (stream 0) hqs
  unfold get_quiz_question
  rw [hc]
  dsimp only
  rw [if_pos (show (Question.format q).id ∈ previous from hcov q hmem)]
  exact quizLoop_gameOver qs previous stream hlen hqs fuel hfuel 1

/-- Witness for C3 amended: pool `[qA]`, served `[1]` — the call returns
the game-over body. -/
theorem quiz_exhaustion_amended_witness :
    ([qA] : List Question) ≠ []
    ∧ (∀ q ∈ [qA], q.id ∈ ([1] : List Nat))
    ∧ ([1] : List Nat).length = [qA].length
    ∧ 1 ≤ 1
    ∧ get_quiz_question [qA] [1] (fun _ => 0) 1
      = some (QuizOutcome.ok QuizResult.gameOver) :=
  ⟨by decide, by decide, rfl, le_refl 1,
    quiz_exhaustion_amended [qA] [1] (fun _ => 0) 1 (by decide) (by decide)
      rfl (le_refl 1)⟩

/-- C4: Quiz empty-pool safety — the spec demands an explicit
"no more questions" report on an empty candidate set, but the code calls
`random.choice` on the empty sequence first thing, which raises an uncaught
`IndexError` (HTTP 500): at every served list, pick stream and fuel the
call crashes. -/
theorem quiz_empty_pool_crashes :
    ∀ (previous : List Nat) (stream : Nat → Nat) (fuel : Nat),
      get_quiz_question [] previous stream fuel = some QuizOutcome.indexError :=
  fun _ _ _ => rfl

/-! ## Claims C5, C6: deletion and creation error handling -/

/-- C5: Delete not-found — the spec (and the handler's own `abort(404)`
line) say an unknown id yields 404 and no other failure kind, but the
`abort(404)` raised inside the `try` block is caught by the bare `except:`
and converted to 422: on an empty store and id 1, the try body raises the
404 exception, yet the client receives 422. -/
theorem delete_unknown_id_gives_422 :
    delete_question ([] : List Question) 1 = HandlerResult.error 422
    ∧ delete_question_try ([] : List Question) 1
      = Except.error (PyExc.httpError 404) :=
  ⟨rfl, rfl⟩

/-- C6: Create validation — the spec (and the repo's own
`create_question_failed_test`, which posts an empty answer and expects 422)
say a missing or invalid required field yields 422 Unprocessable.  The
handler performs no validation: an absent `answer` key raises `KeyError`,
surfacing as 500 (first conjunct), and an empty answer is silently inserted
with a success response (second conjunct) — in neither case is 422
produced. -/
theorem create_missing_or_invalid_not_422 :
    create_question [] 1 1
      ⟨some "How many letters are in the alphabet?", none, some "1", some 1⟩
      = HandlerResult.error 500
    ∧ create_question [] 1 1
      ⟨some "How many letters are in the alphabet?", some "", some "1", some 1⟩
      = HandlerResult.ok
          ([⟨1, "How many letters are in the alphabet?", "", "1", 1⟩],
            ⟨1, [Question.format ⟨1, "How many letters are in the alphabet?", "", "1", 1⟩], 1⟩) :=
  ⟨rfl, rfl⟩

/-! ## Claim C7: pagination bounds -/

/-- C7: Pagination bounds — for every item list and page `p ≥ 1`,
`paginate` returns exactly `min 10 (N - 10*(p-1))` items (truncated
subtraction on naturals is the `max 0` of the claim), each position `i` of
the page is the element at offset `10*(p-1) + i` of the formatted item
list, and the page is empty (never an error) once `10*(p-1) ≥ N`. -/
theorem paginate_bounds (items : List Question) (p : Nat) (hp : 1 ≤ p) :
    (paginate p items).length
      = min QUESTIONS_PER_PAGE (items.length - (p - 1) * QUESTIONS_PER_PAGE)
    ∧ (∀ i : Nat, (paginate p items)[i]?
        = if i < QUESTIONS_PER_PAGE
          then (items.map Question.format)[(p - 1) * QUESTIONS_PER_PAGE + i]?
          else none)
    ∧ (items.length ≤ (p - 1) * QUESTIONS_PER_PAGE → paginate p items = []) := by
  refine ⟨?_, ?_, ?_⟩
  · simp [paginate, List.length_take, List.length_drop, List.length_map]
  · intro i
    by_cases hi : i < QUESTIONS_PER_PAGE
    · rw [if_pos hi]
      show (((items.map Question.format).drop
          ((p - 1) * QUESTIONS_PER_PAGE)).take QUESTIONS_PER_PAGE)[i]? = _
      rw [List.getElem?_take, if_pos hi, List.getElem?_drop]
    · rw [if_neg hi]
      apply List.getElem?_eq_none
      have h1 : (paginate p items).length ≤ QUESTIONS_PER_PAGE := by
        simp [paginate, List.length_take]
      omega
  · intro hN
    show (((items.map Question.format).drop
        ((p - 1) * QUESTIONS_PER_PAGE)).take QUESTIONS_PER_PAGE) = []
    rw [List.drop_eq_nil_of_le, List.take_nil]
    rw [List.length_map]
    exact hN

/-- A store of 12 questions with ids 1 to 12, for the C7 scenario. -/
def sampleQuestions : List Question :=
  (List.range 12).map (fun i => ⟨i + 1, "Q", "A", "1", 1⟩)

/-- Witness for C7 at the spec's scenario: 12 items, page 2 — the page has
`min 10 (12 - 10) = 2` items, positions 10 and 11 of the formatted item
list (questions 11 and 12). -/
theorem paginate_bounds_witness :
    1 ≤ 2
    ∧ ((paginate 2 sampleQuestions).length
        = min QUESTIONS_PER_PAGE
            (sampleQuestions.length - (2 - 1) * QUESTIONS_PER_PAGE)
      ∧ (∀ i : Nat, (paginate 2 sampleQuestions)[i]?
          = if i < QUESTIONS_PER_PAGE
            then (sampleQuestions.map Question.format)[(2 - 1) * QUESTIONS_PER_PAGE + i]?
            else none)
      ∧ (sampleQuestions.length ≤ (2 - 1) * QUESTIONS_PER_PAGE →
          paginate 2 sampleQuestions = []))
    ∧ paginate 2 sampleQuestions
      = [⟨11, "Q", "A", "1", 1⟩, ⟨12, "Q", "A", "1", 1⟩] :=
  ⟨by decide, paginate_bounds sampleQuestions 2 (by decide), by decide⟩

/-! ## Claim C10: the GET method on the deletion route -/

/-- C10: the `/questions/<int:id>` route is registered with
`methods=['GET','DELETE']`, so an HTTP GET dispatches to the deletion
handler exactly as DELETE does, and when a question with the requested id
is in the store, the GET removes it — no side-effect-free read exists at
this path. -/
theorem get_route_deletes (store : List Question) (id : Nat) :
    dispatch_question_id HttpMethod.get store id = some (delete_question store id)
    ∧ dispatch_question_id HttpMethod.get store id
      = dispatch_question_id HttpMethod.delete store id
    ∧ (∀ q ∈ store, q.id = id → ∀ payload,
        dispatch_question_id HttpMethod.get store id
          = some (HandlerResult.ok payload) →
        q ∉ payload.newStore) := by
  refine ⟨rfl, rfl, ?_⟩
  intro q hq hid payload h
  have hdel : delete_question store id = HandlerResult.ok payload :=
    Option.some.inj h
  unfold delete_question delete_question_try at hdel
  cases hfind : store.find? (fun r => r.id == id) with
  | none =>
    have := List.find?_eq_none.mp hfind q hq
    simp [hid] at this
  | some r =>
    rw [hfind] at hdel
    have hpay : payload = ⟨store.filter (fun r => !(r.id == id)), id⟩ :=
      (HandlerResult.ok.inj hdel).symm
    rw [hpay]
    intro hmem
    have := (List.mem_filter.mp hmem).2
    simp [hid] at this

/-- Witness for C10: a one-question store; the GET request at the
question's id removes it. -/
theorem get_route_deletes_witness :
    (qA ∈ [qA]) ∧ qA.id = 1
    ∧ dispatch_question_id HttpMethod.get [qA] 1
      = some (HandlerResult.ok ⟨[], 1⟩)
    ∧ qA ∉ (DeletePayload.mk [] 1).newStore :=
  ⟨by decide, rfl, rfl,
    (get_route_deletes [qA] 1).2.2 qA (by decide) rfl ⟨[], 1⟩ rfl⟩

/-! ## LIKE-matcher lemmas, for claim C8 -/

/-- No `LIKE` wildcard (`'%'`, `'_'`) and no escape character (backslash)
occurs among the characters. -/
def noWild (cs : List Char) : Prop :=
  ∀ c ∈ cs, c ≠ '%' ∧ c ≠ '_' ∧ c ≠ '\\'

instance instDecidableNoWild (cs : List Char) : Decidable (noWild cs) :=
  List.decidableBAll _ cs

/-- The empty pattern matches exactly the empty string. -/
theorem likeMatch_nil_pattern (s : List Char) : likeMatch [] s = s.isEmpty := by
  cases s <;> rfl

/-- A leading `'%'` against the empty string just drops the `'%'`. -/
theorem likeMatch_pct_nil (ps : List Char) :
    likeMatch ('%' :: ps) [] = likeMatch ps [] := by
  simp [likeMatch, likeGo, likeEmpty]

/-- A leading `'%'` against `c :: s` either matches nothing or consumes
`c`. -/
theorem likeMatch_pct_cons (ps : List Char) (c : Char) (s : List Char) :
    likeMatch ('%' :: ps) (c :: s)
      = (likeMatch ps (c :: s) || likeMatch ('%' :: ps) s) := by
  simp [likeMatch, likeGo, likeCons]

/-- A literal pattern character never matches the empty string. -/
theorem likeMatch_lit_nil (p : Char) (ps : List Char) (hp : p ≠ '%') :
    likeMatch (p :: ps) [] = false := by
  simp [likeMatch, likeGo, likeEmpty, hp]

/-- A literal (unescaped, non-wildcard) pattern character against `c :: s`
matches iff it equals `c` and the rest matches. -/
theorem likeMatch_lit_cons (p : Char) (ps : List Char) (c : Char)
    (s : List Char) (hp1 : p ≠ '%') (hp2 : p ≠ '_') (hp3 : p ≠ '\\') :
    likeMatch (p :: ps) (c :: s) = ((p == c) && likeMatch ps s) := by
  simp [likeMatch, likeGo, likeCons, hp1, hp2, hp3]

/-- The pattern `['%']` matches every string. -/
theorem likeMatch_all_pct (s : List Char) : likeMatch ['%'] s = true := by
  induction s with
  | nil => rfl
  | cons c s ih => rw [likeMatch_pct_cons, ih, Bool.or_true]

/-- A leading `'%'` matches `s` iff the rest of the pattern matches some
suffix of `s`. -/
theorem likeMatch_pct_iff (ps : List Char) (s : List Char) :
    likeMatch ('%' :: ps) s = true
      ↔ ∃ t, t <:+ s ∧ likeMatch ps t = true := by
  induction s with
  | nil =>
    rw [likeMatch_pct_nil]
    constructor
    · intro h
      exact ⟨[], List.suffix_refl [], h⟩
    · rintro ⟨t, ht, hm⟩
      rw [List.suffix_nil.mp ht] at hm
      exact hm
  | cons c s ih =>
    rw [likeMatch_pct_cons, Bool.or_eq_true, ih]
    constructor
    · rintro (h | ⟨t, ht, hm⟩)
      · exact ⟨c :: s, List.suffix_refl _, h⟩
      · exact ⟨t, ht.trans (List.suffix_cons c s), hm⟩
    · rintro ⟨t, ht, hm⟩
      rcases List.suffix_cons_iff.mp ht with rfl | ht'
      · exact Or.inl hm
      · exact Or.inr ⟨t, ht', hm⟩

/-- For a wildcard-free `t`, the pattern `t ++ ['%']` matches `s` iff `t`
is a prefix of `s`. -/
theorem likeMatch_lit_pct_iff (t : List Char) (h : noWild t) :
    ∀ s : List Char, likeMatch (t ++ ['%']) s = true ↔ t <+: s := by
  induction t with
  | nil =>
    intro s
    simp [likeMatch_all_pct, List.nil_prefix]
  | cons a t ih =>
    intro s
    have ha := h a (by simp)
    have ht : noWild t := fun c hc => h c (List.mem_cons_of_mem a hc)
    cases s with
    | nil =>
      rw [List.cons_append, likeMatch_lit_nil a _ ha.1]
      simp [List.prefix_nil]
    | cons c s =>
      rw [List.cons_append, likeMatch_lit_cons a _ c s ha.1 ha.2.1 ha.2.2,
        Bool.and_eq_true, beq_iff_eq, List.cons_prefix_cons, ih ht s]

/-- For a wildcard-free `t`, the pattern `'%' :: t ++ ['%']` matches `s`
iff `t` occurs in `s` as a contiguous sublist. -/
theorem likeMatch_infix_iff (t s : List Char) (h : noWild t) :
    likeMatch ('%' :: (t ++ ['%'])) s = true ↔ t <:+: s := by
  rw [likeMatch_pct_iff, List.infix_iff_prefix_suffix]
  constructor
  · rintro ⟨u, hu, hm⟩
    exact ⟨u, (likeMatch_lit_pct_iff t h u).mp hm, hu⟩
  · rintro ⟨u, hp, hs⟩
    exact ⟨u, hs, (likeMatch_lit_pct_iff t h u).mpr hp⟩

/-! ## Claim C8: search containment -/

/-- A question whose text is "abc", for the C8 counterexample. -/
def qS : Question := ⟨7, "abc", "x", "1", 1⟩

/-- A question whose text ends in a literal "ab%", for the C8
counterexample's escape part. -/
def qB : Question := ⟨9, "xab%", "x", "1", 1⟩

/-- A question whose text contains a backslash, for the C8
counterexample's escape part. -/
def qC : Question := ⟨10, "ab\\", "x", "1", 1⟩

/-- C8 counterexample: the search term is spliced into the `ILIKE` pattern
unescaped, so the claimed substring equivalence fails.  First part: the
term `"%"` (pattern `%%%`) matches "abc", so the question is returned, yet
`"%"` is not a substring of "abc".  Second and third parts, the escape
character: the term `ab\` yields the pattern `%ab\%`, whose backslash
escapes the closing `%` into a literal — it matches "xab%" (returned
although `ab\` is not a substring of it) and fails to match the text `ab\`
itself (not returned although `ab\` plainly is a substring of it). -/
theorem search_containment_counterexample :
    (qS ∈ search_questions "%" [qS]
      ∧ ¬ ("%".toList.map Char.toLower) <:+: (qS.question.toList.map Char.toLower))
    ∧ (qB ∈ search_questions "ab\\" [qB]
      ∧ ¬ ("ab\\".toList.map Char.toLower) <:+: (qB.question.toList.map Char.toLower))
    ∧ (qC ∉ search_questions "ab\\" [qC]
      ∧ ("ab\\".toList.map Char.toLower) <:+: (qC.question.toList.map Char.toLower)) := by
  refine ⟨⟨?_, ?_⟩, ⟨?_, ?_⟩, ⟨?_, ?_⟩⟩ <;> decide

/-- C8 amended: for every search term none of whose (lowered) characters
is a `LIKE` wildcard (`'%'`, `'_'`) or the escape character (backslash), a
stored question is returned by the search iff the lowered term occurs in
the lowered question text as a contiguous substring — soundness and
completeness. -/
theorem search_containment_amended (term : String) (store : List Question)
    (q : Question) (h : noWild (term.toList.map Char.toLower)) :
    q ∈ search_questions term store
      ↔ q ∈ store
        ∧ (term.toList.map Char.toLower) <:+: (q.question.toList.map Char.toLower) := by
  have hpat : (("%" ++ term ++ "%").toList.map Char.toLower)
      = '%' :: ((term.toList.map Char.toLower) ++ ['%']) := by
    show ((("%" ++ term ++ "%").data).map Char.toLower) = _
    rw [String.data_append, String.data_append]
    simp [String.data]
  rw [search_questions, List.mem_filter, iLike, hpat]
  rw [show (likeMatch ('%' :: ((term.toList.map Char.toLower) ++ ['%']))
      (q.question.toList.map Char.toLower) = true)
      ↔ (term.toList.map Char.toLower) <:+: (q.question.toList.map Char.toLower)
    from likeMatch_infix_iff _ _ h]

/-- A question containing the word "title", for the C8 witness. -/
def qT : Question := ⟨8, "What is the Title?", "x", "1", 1⟩

/-- Witness for C8 amended at term "Tit" on a one-question store: the term
has no wildcard, and the question is returned iff the lowered term occurs
in the lowered text (both sides hold here). -/
theorem search_containment_amended_witness :
    noWild ("Tit".toList.map Char.toLower)
    ∧ (qT ∈ search_questions "Tit" [qT]
        ↔ qT ∈ [qT]
          ∧ ("Tit".toList.map Char.toLower) <:+: (qT.question.toList.map Char.toLower)) :=
  ⟨by decide, search_containment_amended "Tit" [qT] qT (by decide)⟩

/-! ## Claim C9: category scoping -/

/-- C9: Category scoping — every question in a by-category response has
the queried category as its category reference (in the store's string
representation, the handler compares against `str(id)`), and an id with no
category record yields `abort(404)`, never an empty success. -/
theorem byCategory_scoped (cats : List Category) (store : List Question)
    (id : Nat) (page : Nat) :
    (∀ payload, show_questions_by_category cats store id page
        = HandlerResult.ok payload →
      ∀ fq ∈ payload.questions, fq.category = toString id)
    ∧ ((∀ c ∈ cats, c.id ≠ id) →
      show_questions_by_category cats store id page = HandlerResult.error 404) := by
  constructor
  · intro payload h fq hfq
    unfold show_questions_by_category at h
    cases hfind : cats.find? (fun c => c.id == id) with
    | none => rw [hfind] at h; cases h
    | some cat =>
      rw [hfind] at h
      dsimp only at h
      have hq : payload
          = ⟨paginate page (store.filter (fun q => q.category == toString id)),
              (store.filter (fun q => q.category == toString id)).length,
              cat.type⟩ :=
        (HandlerResult.ok.inj h).symm
      rw [hq] at hfq
      have hfq' : fq ∈ ((store.filter
          (fun q => q.category == toString id)).map Question.format).drop
            ((page - 1) * QUESTIONS_PER_PAGE) :=
        List.mem_of_mem_take hfq
      obtain ⟨q, hqmem, rfl⟩ := List.mem_map.mp (List.mem_of_mem_drop hfq')
      exact beq_iff_eq.mp (List.mem_filter.mp hqmem).2
  · intro hall
    unfold show_questions_by_category
    rw [List.find?_eq_none.mpr (fun c hc => by simp [hall c hc])]

/-- Witness for C9 at the spec's scenario: categories
`{1: "Science", 2: "Art"}`, queried id 3 — not-found. -/
theorem byCategory_scoped_witness :
    (∀ c ∈ [Category.mk 1 "Science", Category.mk 2 "Art"], c.id ≠ 3)
    ∧ show_questions_by_category [Category.mk 1 "Science", Category.mk 2 "Art"]
        [] 3 1 = HandlerResult.error 404 :=
  ⟨by decide,
    (byCategory_scoped [Category.mk 1 "Science", Category.mk 2 "Art"] [] 3 1).2
      (by decide)⟩

end Trivia
